import Mathlib

/-!
# Verification of the barcode scanner's code-resolution pipeline

Shallow embedding of the core logic of `qr_scanner.py` and `test.py`:
checksum validation (`validate_ean_generic`, `validate_upca` from
`test.py`), the UPC-A / EAN-13 normalization block of `lookup_barcode`,
the ordered provider-chain resolver of `lookup_barcode`
(`qr_scanner.py`), and the deduplicating record store implemented
inline in each `main` loop.

Python strings are modelled as `List Char` (the scanner handles ASCII
digit strings; `str.isdigit` is modelled on that fragment). Network
calls are modelled by an environment `Env` mapping the queried code to
either `none` (any exception: timeout, network error, JSON parse
failure) or `some` parsed response. Timestamps are abstract `Nat`s.
-/

namespace BarcodeScanner

/-- Python `str.isdigit()` on the ASCII fragment: non-empty and every
character a decimal digit. -/
def isdigit (code : List Char) : Bool :=
  !code.isEmpty && code.all Char.isDigit

/-- `int(c)` for a digit character. -/
def charDigit (c : Char) : Nat :=
  c.toNat - 48

/-- The weighted sum of `test.py`'s `validate_ean_generic`: after the
check digit is popped and the list reversed, positions are weighted
3, 1, 3, 1, … from the front (`3 if i % 2 == 0 else 1`). The flag
carries the weight of the head position. -/
def weightedSum : Bool → List Nat → Nat
  | _, [] => 0
  | w3, d :: rest => (if w3 then 3 * d else d) + weightedSum (!w3) rest

/-- `test.py` lines 7–18: validate an EAN-8 or EAN-13 code using its
check digit. -/
def validate_ean_generic (code : List Char) : Bool :=
  if !(code.length = 8 || code.length = 13) || !isdigit code then
    false
  else
    let digits := code.map charDigit
    let checksum := digits.getLastD 0
    let total := weightedSum true digits.dropLast.reverse
    decide ((10 - total % 10) % 10 = checksum)

/-- `test.py` lines 20–26: validate a UPC-A code by treating it as an
EAN-13 with a leading zero. -/
def validate_upca (code : List Char) : Bool :=
  if !(code.length = 12) || !isdigit code then
    false
  else
    validate_ean_generic ('0' :: code)

/-- The normalization block at the top of `lookup_barcode`
(`qr_scanner.py` lines 256–259 and `test.py` lines 50–53):
an 11-digit code is prefixed with `'0'`; a 13-character code starting
with `'0'` loses its first character; anything else is unchanged. -/
def normalize (code : List Char) : List Char :=
  if code.length = 11 && isdigit code then
    '0' :: code
  else if code.length = 13 && code.head? = some '0' then
    code.drop 1
  else
    code

/-- The canonical product-metadata shape returned by `lookup_barcode`:
the Python dict with keys `title, brand, description, category`, each
`None` or a string. -/
structure ProductInfo where
  title : Option String
  brand : Option String
  description : Option String
  category : Option String
deriving DecidableEq, Repr

/-- Python truthiness of a value that is `None` or a string: `None` and
the empty string are falsy. -/
def truthy : Option String → Bool
  | none => false
  | some s => decide (s ≠ String.mk [])

/-- Python `a or b` on `None`-or-string values: `a` if truthy, else `b`. -/
def pyOr (a b : Option String) : Option String :=
  if truthy a then a else b

/-- Parsed JSON body of a BarcodeMonster response: the fields
`lookup_barcode` reads via `d.get(...)`. -/
structure BMJson where
  product : Option String
  brand : Option String
  description : Option String
  category : Option String
deriving DecidableEq

/-- A BarcodeMonster HTTP response: its `ok` status and JSON body. -/
structure BMResp where
  ok : Bool
  json : BMJson
deriving DecidableEq

/-- One element of UPCitemdb's `items` list. -/
structure UPCItem where
  title : Option String
  model : Option String
  brand : Option String
  description : Option String
  category : Option String
deriving DecidableEq

/-- The `product` object of an OpenFoodFacts response. -/
structure OFFProduct where
  product_name : Option String
  brands : Option String
  generic_name : Option String
  categories : Option String
  categories_tags : List String
deriving DecidableEq

/-- An OpenFoodFacts response body: `status`, and the `product` key
(`none` when absent, in which case `data["product"]` raises and the
`except` clause falls through to the next provider). -/
structure OFFResp where
  status : Option Int
  product : Option OFFProduct
deriving DecidableEq

/-- One element of SerpAPI's `shopping_results` list. -/
structure SerpItem where
  title : Option String
  source : Option String
  description : Option String
  category : Option String
deriving DecidableEq

/-- The network environment: for each provider, the response obtained
for a queried code, or `none` when the request raises anywhere inside
the `try` block (timeout, network error, non-JSON body). -/
structure Env where
  bm : List Char → Option BMResp
  upcitemdb : List Char → Option (List UPCItem)
  off : List Char → Option OFFResp
  serp : List Char → Option (List SerpItem)

/-- `", ".join(tags)`. -/
def joinTags (tags : List String) : String :=
  String.intercalate (String.mk [',', ' ']) tags

/-- First `try` block of `lookup_barcode` (BarcodeMonster,
`qr_scanner.py` lines 262–274): on `r.ok` and a truthy `product`
field, return the field mapping; on anything else fall through
(`none`). -/
def tryBM (env : Env) (code : List Char) : Option ProductInfo :=
  match env.bm code with
  | none => none
  | some r =>
    if r.ok && truthy r.json.product then
      some ⟨r.json.product, r.json.brand,
            pyOr r.json.description r.json.product, r.json.category⟩
    else
      none

/-- Second `try` block (UPCitemdb, lines 277–290): on a non-empty
`items` list, return the mapping of `items[0]`. -/
def tryUPC (env : Env) (code : List Char) : Option ProductInfo :=
  match env.upcitemdb code with
  | none => none
  | some [] => none
  | some (item :: _) =>
    some ⟨pyOr item.title item.model, item.brand,
          pyOr item.description item.title, item.category⟩

/-- Third `try` block (OpenFoodFacts, lines 293–306): on
`data.get("status") == 1`, read `data["product"]` (raising — hence
falling through — when the key is absent) and return its mapping. -/
def tryOFF (env : Env) (code : List Char) : Option ProductInfo :=
  match env.off code with
  | none => none
  | some data =>
    if data.status = some 1 then
      match data.product with
      | none => none
      | some prod =>
        some ⟨prod.product_name, prod.brands,
              pyOr prod.generic_name prod.product_name,
              pyOr prod.categories (some (joinTags prod.categories_tags))⟩
    else
      none

/-- Fourth `try` block (SerpAPI Google Shopping, lines 309–326): on a
non-empty `shopping_results` list, return the mapping of its head. -/
def trySerp (env : Env) (code : List Char) : Option ProductInfo :=
  match env.serp code with
  | none => none
  | some [] => none
  | some (res :: _) =>
    some ⟨res.title, res.source, res.description, res.category⟩

/-- The all-`None` fallback dict of `lookup_barcode` line 328. -/
def allNull : ProductInfo :=
  ⟨none, none, none, none⟩

/-- `lookup_barcode` (`qr_scanner.py` lines 251–328): normalize the
code, then try the four providers in order, returning the first
successful field mapping, else the all-null dict. The second component
instruments which `try` blocks actually executed (1 = BarcodeMonster,
2 = UPCitemdb, 3 = OpenFoodFacts, 4 = SerpAPI), in order. -/
def lookup_barcode (env : Env) (code0 : List Char) : ProductInfo × List Nat :=
  match tryBM env (normalize code0) with
  | some info => (info, [1])
  | none =>
    match tryUPC env (normalize code0) with
    | some info => (info, [1, 2])
    | none =>
      match tryOFF env (normalize code0) with
      | some info => (info, [1, 2, 3])
      | none =>
        match trySerp env (normalize code0) with
        | some info => (info, [1, 2, 3, 4])
        | none => (allNull, [1, 2, 3, 4])

/-- The outcome of provider `i` (1-based) on a queried code: `some`
field mapping when the provider yields usable data, `none` when its
`try` block falls through. -/
def providerResult (env : Env) (code : List Char) : Nat → Option ProductInfo
  | 1 => tryBM env code
  | 2 => tryUPC env code
  | 3 => tryOFF env code
  | 4 => trySerp env code
  | _ => none

/-- A persisted record of `qr_scanner.py`'s `main` (lines 401–407):
timestamp, code, the two OCR auxiliary strings, and the `ProductInfo`
fields spread into it. Timestamps are abstract `Nat`s. -/
structure Record where
  timestamp : Nat
  code : List Char
  mrp : Option String
  quantity : Option String
  info : ProductInfo
deriving DecidableEq

/-- The mutable state of `qr_scanner.py`'s `main`: the in-memory
`records` list, the `seen` set of codes (modelled as a list with
membership), and the contents of the persisted log file
`barcodes.json`. -/
structure StoreState where
  records : List Record
  seen : List (List Char)
  log : List Record
deriving DecidableEq

/-- The per-symbol body of `qr_scanner.py`'s `main` loop (lines
389–411): skip when the decoded text is empty or already seen;
otherwise look the code up, append a record, add the code to `seen`,
and rewrite the whole log. The Boolean is the duplicate-suppression
signal: `true` iff a record was created and persisted. -/
def processSymbol (env : Env) (ts : Nat) (mrp qty : Option String)
    (code : List Char) (s : StoreState) : Bool × StoreState :=
  if code.isEmpty || code ∈ s.seen then
    (false, s)
  else
    let info := (lookup_barcode env code).1
    let recs := s.records ++ [⟨ts, code, mrp, qty, info⟩]
    (true, ⟨recs, code :: s.seen, recs⟩)

/-- One decoded symbol together with the frame's OCR values and an
abstract timestamp, as consumed by the `main` loop. -/
structure SymInput where
  ts : Nat
  mrp : Option String
  quantity : Option String
  code : List Char

/-- Folding the `main` loop body over a sequence of decoded symbols. -/
def runSymbols (env : Env) (inputs : List SymInput) (s : StoreState) : StoreState :=
  inputs.foldl (fun st inp => (processSymbol env inp.ts inp.mrp inp.quantity inp.code st).2) s

/-- Every code occurs in at most one record of the list. -/
def atMostOncePerCode (l : List Record) : Prop :=
  ∀ c : List Char, l.countP (fun r => decide (r.code = c)) ≤ 1

/-- The record-store invariant of `qr_scanner.py`'s `main`: every
recorded code is in the seen-set, the persisted log equals the
in-memory record list, and no code is recorded twice. It holds of the
empty startup state and of any state reloaded from a log the program
itself wrote. -/
def StoreInv (s : StoreState) : Prop :=
  (∀ r ∈ s.records, r.code ∈ s.seen) ∧ s.log = s.records ∧ atMostOncePerCode s.records

/-- A persisted record of `test.py`'s `main` (lines 211–216):
timestamp, symbol type, code, and the `ProductInfo` fields. -/
structure TRecord where
  timestamp : Nat
  btype : String
  code : List Char
  info : ProductInfo
deriving DecidableEq

/-- The mutable state of `test.py`'s `main`. -/
structure TState where
  records : List TRecord
  seen : List (List Char)
  log : List TRecord
deriving DecidableEq

/-- The checksum dispatch of `test.py`'s `main` (lines 180–189):
UPC-A and EAN types are checksum-validated; every other symbol type is
skipped (`continue`). `true` means the symbol survives validation. -/
def symbolValid (code : List Char) (btype : String) : Bool :=
  if btype = String.mk ['U', 'P', 'C', '_', 'A'] then
    validate_upca code
  else if btype = String.mk ['E', 'A', 'N', '_', '8']
      ∨ btype = String.mk ['E', 'A', 'N', '_', '1', '3'] then
    validate_ean_generic code
  else
    false

/-- `any(info.values())`: some field of the dict is truthy. -/
def anyInfo (info : ProductInfo) : Bool :=
  truthy info.title || truthy info.brand || truthy info.description || truthy info.category

/-- The per-symbol body of `test.py`'s `main` loop (lines 175–220),
with the provider lookup abstracted as a function argument: skip
empty/seen codes, discard symbols failing the checksum dispatch,
look up the survivors, skip all-falsy lookup results, and otherwise
record and persist. Returns (lookup issued?, recorded?, new state). -/
def processSymbolTest (lookupFn : List Char → ProductInfo) (ts : Nat)
    (code : List Char) (btype : String) (s : TState) : Bool × Bool × TState :=
  if code.isEmpty || code ∈ s.seen then
    (false, false, s)
  else if !symbolValid code btype then
    (false, false, s)
  else
    let info := lookupFn code
    if !anyInfo info then
      (true, false, s)
    else
      let recs := s.records ++ [⟨ts, btype, code, info⟩]
      (true, true, ⟨recs, code :: s.seen, recs⟩)

/-- An environment where every provider request raises (network down):
every lookup falls through the whole chain. -/
def failEnv : Env :=
  ⟨fun _ => none, fun _ => none, fun _ => none, fun _ => none⟩

/-- An environment where the first provider (BarcodeMonster) answers
every query with a usable response. -/
def bmOkEnv : Env :=
  ⟨fun _ => some ⟨true, ⟨some (String.mk ['X']), none, none, none⟩⟩,
   fun _ => none, fun _ => none, fun _ => none⟩

/-- The startup state when no prior log exists. -/
def emptyStore : StoreState :=
  ⟨[], [], []⟩

/-- The startup state of `test.py`'s store when no prior log exists. -/
def emptyTStore : TState :=
  ⟨[], [], []⟩

/-- The 11-digit form of the spec's example number, `12345678905`. -/
def c11 : List Char :=
  ['1', '2', '3', '4', '5', '6', '7', '8', '9', '0', '5']

/-- The 13-digit zero-prefixed form of the same number,
`0012345678905`. -/
def c13 : List Char :=
  ['0', '0', '1', '2', '3', '4', '5', '6', '7', '8', '9', '0', '5']

/-- A 13-digit code whose check digit is wrong (`0000000000001`:
the correct check digit of `000000000000` is 0). -/
def bad13 : List Char :=
  ['0', '0', '0', '0', '0', '0', '0', '0', '0', '0', '0', '0', '1']

/-- A store state in which a record for the 13-digit zero-prefixed
form `0012345678905` has already been persisted (and its raw text is
in the seen-set), as after scanning that form once. -/
def seededStore : StoreState :=
  ⟨[⟨0, c13, none, none, allNull⟩], [c13], [⟨0, c13, none, none, allNull⟩]⟩

/-- The alternating weight of the claimed EAN check-digit formula:
3 at even right-to-left positions, 1 at odd ones. Transcribed from the
spec sentence, not from the code. -/
def altWeight (i : Nat) : Nat :=
  if i % 2 = 0 then 3 else 1

/-- The claimed check sum `S`: the digits excluding the last, taken
right to left, weighted 3, 1, 3, 1, … starting with 3 at the rightmost.
Transcribed from the spec sentence, not from the code. -/
def specCheckSum (ds : List Nat) : Nat :=
  (ds.reverse.enum.map (fun p => altWeight p.1 * p.2)).sum

/-- EAN validity as the claim states it: length 8 or 13, all decimal
digits, and `(10 - (S mod 10)) mod 10` equal to the last digit.
Transcribed from the spec sentence, not from the code. -/
def validEanSpec (code : List Char) : Bool :=
  (decide (code.length = 8) || decide (code.length = 13)) && code.all Char.isDigit &&
    decide ((10 - specCheckSum (code.map charDigit).dropLast % 10) % 10
              = (code.map charDigit).getLastD 0)

/-- The normalizer as the claim states it: prefix `'0'` to an 11-digit
code, strip the first character of a 13-character code starting with
`'0'`, otherwise return unchanged. Transcribed from the spec sentence,
not from the code. -/
def normalizeSpec (code : List Char) : List Char :=
  if code.length = 11 && code.all Char.isDigit then
    '0' :: code
  else if code.length = 13 && code.head? = some '0' then
    code.drop 1
  else
    code

theorem not_decide_mod_two (k : Nat) :
    (!decide (k % 2 = 0)) = decide ((k + 1) % 2 = 0) := by
  rcases Nat.mod_two_eq_zero_or_one k with h | h
  · have h1 : (k + 1) % 2 = 1 := by omega
    simp [h, h1]
  · have h1 : (k + 1) % 2 = 0 := by omega
    simp [h, h1]

theorem weightedSum_eq_enumFrom (l : List Nat) : ∀ k : Nat,
    weightedSum (decide (k % 2 = 0)) l
      = ((l.enumFrom k).map (fun p => altWeight p.1 * p.2)).sum := by
  induction l with
  | nil => intro k; simp [weightedSum]
  | cons d t ih =>
    intro k
    simp only [weightedSum, not_decide_mod_two, ih (k + 1), List.enumFrom_cons,
      List.map_cons, List.sum_cons]
    by_cases h : k % 2 = 0 <;> simp [altWeight, h]

theorem specCheckSum_eq_weightedSum (ds : List Nat) :
    specCheckSum ds = weightedSum true ds.reverse := by
  have h := weightedSum_eq_enumFrom ds.reverse 0
  simpa [specCheckSum, List.enum] using h.symm

/-- Claim C2: `validate_ean_generic(code)` returns true iff the length
is 8 or 13, every character is a decimal digit, and
`(10 - (S mod 10)) mod 10` equals the last digit, where `S` weights
the remaining digits 3, 1, 3, 1, … right to left starting with 3;
false in every other case. -/
theorem validate_ean_generic_meets_spec (code : List Char) :
    validate_ean_generic code = validEanSpec code := by
  rcases code with _ | ⟨c, cs⟩
  · simp [validate_ean_generic, validEanSpec, isdigit]
  · by_cases h8 : (c :: cs).length = 8 <;>
      by_cases h13 : (c :: cs).length = 13 <;>
      cases hd : (c :: cs).all Char.isDigit <;>
      simp [validate_ean_generic, validEanSpec, isdigit, h8, h13, hd,
        specCheckSum_eq_weightedSum]

/-- Claim C3: `validate_upca(code)` returns true iff the code is
exactly 12 decimal digits and `"0" + code` passes EAN-13 validation. -/
theorem validate_upca_eq_ean_with_leading_zero (code : List Char) :
    validate_upca code
      = (decide (code.length = 12) && code.all Char.isDigit
          && validate_ean_generic ('0' :: code)) := by
  rcases code with _ | ⟨c, cs⟩
  · simp [validate_upca, isdigit]
  · by_cases h12 : (c :: cs).length = 12 <;>
      cases hd : (c :: cs).all Char.isDigit <;>
      simp [validate_upca, isdigit, h12, hd]

/-- Claim C4: `normalize` prefixes `'0'` to an 11-digit code, strips
the leading character of a 13-character code starting with `'0'`, and
returns every other input unchanged. -/
theorem normalize_meets_spec (code : List Char) :
    normalize code = normalizeSpec code := by
  rcases code with _ | ⟨c, cs⟩
  · simp [normalize, normalizeSpec, isdigit]
  · simp [normalize, normalizeSpec, isdigit]

theorem normalize_idem (x : List Char) :
    normalize (normalize x) = normalize x := by
  by_cases h1 : x.length = 11 ∧ isdigit x = true
  · have hx : normalize x = '0' :: x := by
      simp [normalize, h1.1, h1.2]
    rw [hx]
    simp [normalize, h1.1]
  · by_cases h2 : x.length = 13 ∧ x.head? = some '0'
    · have hx : normalize x = x.drop 1 := by
        have hA : (decide (x.length = 11) && isdigit x) = false := by
          cases hd : isdigit x <;> by_cases h : x.length = 11 <;> simp_all [h2.1]
        simp [normalize, hA, h2.1, h2.2]
      rw [hx]
      simp [normalize, h2.1]
    · have hA : (decide (x.length = 11) && isdigit x) = false := by
        cases hd : isdigit x <;> by_cases h : x.length = 11 <;> simp_all
      have hB : (decide (x.length = 13) && decide (x.head? = some '0')) = false := by
        by_cases hh : x.head? = some '0' <;> by_cases h : x.length = 13 <;> simp_all
      have hx : normalize x = x := by
        simp [normalize, hA, hB]
      rw [hx, hx]

/-- Claim C5: the normalizer is idempotent:
`normalize (normalize x) = normalize x` for every string. -/
theorem normalize_idempotent (x : List Char) :
    normalize (normalize x) = normalize x :=
  normalize_idem x

/-- Claim C6: the provider chain short-circuits. If provider `i`
yields usable data, then the chain stops at the first succeeding
provider `k ≤ i`: that provider's field mapping is returned, the
providers queried are exactly `1, …, k` in order, and providers after
`k` (in particular `2, …, n` when the first succeeds) are never
invoked. -/
theorem lookup_barcode_short_circuits (env : Env) (code : List Char) (i : Nat)
    (h : (providerResult env (normalize code) i).isSome = true) :
    ∃ k info, 1 ≤ k ∧ k ≤ i ∧ providerResult env (normalize code) k = some info ∧
      (lookup_barcode env code).1 = info ∧
      (lookup_barcode env code).2 = List.range' 1 k := by
  cases h1 : tryBM env (normalize code) with
  | some info =>
    have hi : 1 ≤ i := by
      match i with
      | 0 => simp [providerResult] at h
      | n + 1 => omega
    exact ⟨1, info, le_refl 1, hi, by simp [providerResult, h1],
      by simp [lookup_barcode, h1], by simp [lookup_barcode, h1, List.range']⟩
  | none =>
    cases h2 : tryUPC env (normalize code) with
    | some info =>
      have hi : 2 ≤ i := by
        match i with
        | 0 => simp [providerResult] at h
        | 1 => simp [providerResult, h1] at h
        | n + 2 => omega
      exact ⟨2, info, by omega, hi, by simp [providerResult, h2],
        by simp [lookup_barcode, h1, h2], by simp [lookup_barcode, h1, h2, List.range']⟩
    | none =>
      cases h3 : tryOFF env (normalize code) with
      | some info =>
        have hi : 3 ≤ i := by
          match i with
          | 0 => simp [providerResult] at h
          | 1 => simp [providerResult, h1] at h
          | 2 => simp [providerResult, h2] at h
          | n + 3 => omega
        exact ⟨3, info, by omega, hi, by simp [providerResult, h3],
          by simp [lookup_barcode, h1, h2, h3],
          by simp [lookup_barcode, h1, h2, h3, List.range']⟩
      | none =>
        cases h4 : trySerp env (normalize code) with
        | some info =>
          have hi : 4 ≤ i := by
            match i with
            | 0 => simp [providerResult] at h
            | 1 => simp [providerResult, h1] at h
            | 2 => simp [providerResult, h2] at h
            | 3 => simp [providerResult, h3] at h
            | n + 4 => omega
          exact ⟨4, info, by omega, hi, by simp [providerResult, h4],
            by simp [lookup_barcode, h1, h2, h3, h4],
            by simp [lookup_barcode, h1, h2, h3, h4, List.range']⟩
        | none =>
          exfalso
          match i with
          | 0 => simp [providerResult] at h
          | 1 => simp [providerResult, h1] at h
          | 2 => simp [providerResult, h2] at h
          | 3 => simp [providerResult, h3] at h
          | 4 => simp [providerResult, h4] at h
          | n + 5 => simp [providerResult] at h

theorem lookup_barcode_short_circuits_witness :
    ∃ k info, 1 ≤ k ∧ k ≤ 1 ∧ providerResult bmOkEnv (normalize c11) k = some info ∧
      (lookup_barcode bmOkEnv c11).1 = info ∧
      (lookup_barcode bmOkEnv c11).2 = List.range' 1 k :=
  lookup_barcode_short_circuits bmOkEnv c11 1 (by decide)

/-- Claim C7: every provider failure is recovered locally (each
`except` clause maps any failure of its `try` block to a fall-through,
modelled by the `none` branches — `lookup_barcode` is a total function
and never raises), and when no provider yields usable data the chain
visits all four providers and returns the all-null `ProductInfo`. -/
theorem lookup_barcode_exhaustion_all_null (env : Env) (code : List Char)
    (h : ∀ i, providerResult env (normalize code) i = none) :
    lookup_barcode env code = (allNull, [1, 2, 3, 4]) := by
  have h1 := h 1
  have h2 := h 2
  have h3 := h 3
  have h4 := h 4
  simp [providerResult] at h1 h2 h3 h4
  simp [lookup_barcode, h1, h2, h3, h4]

theorem lookup_barcode_exhaustion_all_null_witness :
    lookup_barcode failEnv c11 = (allNull, [1, 2, 3, 4]) :=
  lookup_barcode_exhaustion_all_null failEnv c11 (fun i => by
    rcases i with _ | _ | _ | _ | _ | n <;> rfl)

theorem processSymbol_reject (env : Env) (ts : Nat) (mrp qty : Option String)
    (code : List Char) (s : StoreState) (h : code = [] ∨ code ∈ s.seen) :
    processSymbol env ts mrp qty code s = (false, s) := by
  rcases h with h | h
  · simp [processSymbol, h]
  · simp [processSymbol, h]

theorem processSymbol_record (env : Env) (ts : Nat) (mrp qty : Option String)
    (code : List Char) (s : StoreState) (hne : code ≠ []) (hseen : code ∉ s.seen) :
    processSymbol env ts mrp qty code s =
      (true, ⟨s.records ++ [⟨ts, code, mrp, qty, (lookup_barcode env code).1⟩],
              code :: s.seen,
              s.records ++ [⟨ts, code, mrp, qty, (lookup_barcode env code).1⟩]⟩) := by
  simp [processSymbol, hne, hseen]

theorem countP_code_zero_of_not_seen (s : StoreState) (hs : StoreInv s)
    (code : List Char) (hseen : code ∉ s.seen) :
    s.records.countP (fun r => decide (r.code = code)) = 0 := by
  rw [List.countP_eq_zero]
  intro r hr
  simp only [decide_eq_true_eq]
  intro hrc
  exact hseen (hrc ▸ hs.1 r hr)

theorem processSymbol_inv (env : Env) (ts : Nat) (mrp qty : Option String)
    (code : List Char) (s : StoreState) (hs : StoreInv s) :
    StoreInv (processSymbol env ts mrp qty code s).2 := by
  by_cases hrej : code = [] ∨ code ∈ s.seen
  · rw [processSymbol_reject env ts mrp qty code s hrej]
    exact hs
  · push_neg at hrej
    obtain ⟨hne, hseen⟩ := hrej
    rw [processSymbol_record env ts mrp qty code s hne hseen]
    obtain ⟨hmem, hlog, hcount⟩ := hs
    refine ⟨?_, rfl, ?_⟩
    · intro r hr
      rcases List.mem_append.mp hr with hr | hr
      · exact List.mem_cons_of_mem _ (hmem r hr)
      · simp only [List.mem_singleton] at hr
        subst hr
        exact List.mem_cons_self _ _
    · intro c
      rw [List.countP_append]
      by_cases hc : c = code
      · subst hc
        have h0 : s.records.countP (fun r => decide (r.code = c)) = 0 :=
          countP_code_zero_of_not_seen s ⟨hmem, hlog, hcount⟩ c hseen
        simp [h0, List.countP_cons]
      · have h1 : (([⟨ts, code, mrp, qty, (lookup_barcode env code).1⟩] : List Record).countP
            (fun r => decide (r.code = c))) = 0 := by
          simp [List.countP_cons]
          intro h
          exact absurd h.symm hc
        rw [h1]
        simpa using hcount c

theorem runSymbols_inv (env : Env) (inputs : List SymInput) :
    ∀ s : StoreState, StoreInv s → StoreInv (runSymbols env inputs s) := by
  induction inputs with
  | nil =>
    intro s hs
    simpa [runSymbols] using hs
  | cons inp rest ih =>
    intro s hs
    simp only [runSymbols, List.foldl_cons]
    exact ih _ (processSymbol_inv env inp.ts inp.mrp inp.quantity inp.code s hs)

theorem emptyStoreInv : StoreInv emptyStore := by
  refine ⟨?_, rfl, ?_⟩ <;> simp [emptyStore, atMostOncePerCode]

/-- Claim C8: the record store deduplicates. A call whose code is
empty or already seen returns `recorded = false` and changes nothing;
the store invariant — at most one record per distinct code, persisted
log equal to the record list — is preserved by every sequence of
operations; and two calls with the same fresh code yield `true` then
`false`, with exactly one record for that code persisted. -/
theorem record_store_dedup :
    (∀ (env : Env) (ts : Nat) (mrp qty : Option String) (code : List Char)
        (s : StoreState), code = [] ∨ code ∈ s.seen →
        processSymbol env ts mrp qty code s = (false, s)) ∧
    (∀ (env : Env) (inputs : List SymInput) (s : StoreState),
        StoreInv s → StoreInv (runSymbols env inputs s)) ∧
    (∀ (env : Env) (ts1 ts2 : Nat) (m1 q1 m2 q2 : Option String)
        (code : List Char) (s : StoreState),
        StoreInv s → code ≠ [] → code ∉ s.seen →
        (processSymbol env ts1 m1 q1 code s).1 = true ∧
        processSymbol env ts2 m2 q2 code (processSymbol env ts1 m1 q1 code s).2
          = (false, (processSymbol env ts1 m1 q1 code s).2) ∧
        ((processSymbol env ts1 m1 q1 code s).2.log.countP
            (fun r => decide (r.code = code))) = 1) := by
  refine ⟨processSymbol_reject, fun env inputs s => runSymbols_inv env inputs s, ?_⟩
  intro env ts1 ts2 m1 q1 m2 q2 code s hs hne hseen
  rw [processSymbol_record env ts1 m1 q1 code s hne hseen]
  refine ⟨rfl, ?_, ?_⟩
  · exact processSymbol_reject env ts2 m2 q2 code _ (Or.inr (List.mem_cons_self _ _))
  · simp only [List.countP_append]
    rw [countP_code_zero_of_not_seen s hs code hseen]
    simp [List.countP_cons]

theorem record_store_dedup_witness :
    processSymbol failEnv 0 none none [] emptyStore = (false, emptyStore) ∧
    StoreInv (runSymbols failEnv [] emptyStore) ∧
    ((processSymbol failEnv 0 none none c11 emptyStore).1 = true ∧
     processSymbol failEnv 1 none none c11 (processSymbol failEnv 0 none none c11 emptyStore).2
       = (false, (processSymbol failEnv 0 none none c11 emptyStore).2) ∧
     ((processSymbol failEnv 0 none none c11 emptyStore).2.log.countP
         (fun r => decide (r.code = c11))) = 1) :=
  ⟨record_store_dedup.1 failEnv 0 none none [] emptyStore (Or.inl rfl),
   record_store_dedup.2.1 failEnv [] emptyStore emptyStoreInv,
   record_store_dedup.2.2 failEnv 0 1 none none none none c11 emptyStore emptyStoreInv
     (by decide) (by decide)⟩

/-- Claim C9: in `test.py`'s pipeline, a decoded symbol that fails
checksum validation, or is of a symbol type other than UPC-A / EAN-8 /
EAN-13, is discarded silently: no provider lookup is issued, nothing
is recorded, and the state is unchanged. -/
theorem invalid_symbol_discarded_silently (lookupFn : List Char → ProductInfo)
    (ts : Nat) (code : List Char) (btype : String) (s : TState)
    (h : symbolValid code btype = false) :
    processSymbolTest lookupFn ts code btype s = (false, false, s) := by
  by_cases hrej : (code.isEmpty || decide (code ∈ s.seen)) = true
  · simp [processSymbolTest, hrej]
  · simp [processSymbolTest, hrej, h]

theorem invalid_symbol_discarded_silently_witness :
    symbolValid bad13 (String.mk ['E', 'A', 'N', '_', '1', '3']) = false ∧
    processSymbolTest (fun _ => allNull) 0 bad13
        (String.mk ['E', 'A', 'N', '_', '1', '3']) emptyTStore
      = (false, false, emptyTStore) :=
  ⟨by decide,
   invalid_symbol_discarded_silently (fun _ => allNull) 0 bad13
     (String.mk ['E', 'A', 'N', '_', '1', '3']) emptyTStore (by decide)⟩

/-- Claim C10: in `qr_scanner.py`'s pipeline, every decoded symbol
with a non-empty, not-yet-seen text is recorded unconditionally: no
checksum validation is consulted (the equation holds for every code,
valid or not), and the record is appended and persisted even when
`lookup_barcode` returns the all-null `ProductInfo`. -/
theorem qr_pipeline_records_unconditionally (env : Env) (ts : Nat)
    (mrp qty : Option String) (code : List Char) (s : StoreState)
    (hne : code ≠ []) (hseen : code ∉ s.seen) :
    processSymbol env ts mrp qty code s =
      (true, ⟨s.records ++ [⟨ts, code, mrp, qty, (lookup_barcode env code).1⟩],
              code :: s.seen,
              s.records ++ [⟨ts, code, mrp, qty, (lookup_barcode env code).1⟩]⟩) :=
  processSymbol_record env ts mrp qty code s hne hseen

theorem qr_pipeline_records_unconditionally_witness :
    validate_ean_generic bad13 = false ∧
    (lookup_barcode failEnv bad13).1 = allNull ∧
    processSymbol failEnv 0 none none bad13 emptyStore =
      (true, ⟨[⟨0, bad13, none, none, allNull⟩], [bad13],
              [⟨0, bad13, none, none, allNull⟩]⟩) :=
  ⟨by decide, by decide,
   (qr_pipeline_records_unconditionally failEnv 0 none none bad13 emptyStore
      (by decide) (by decide)).trans (by decide)⟩

/-- Claim C1 as stated is false on the code: with a record for the
13-digit zero-prefixed form `0012345678905` already persisted and its
raw text in the seen-set, processing the 11-digit form `12345678905`
— which normalizes to the same code — is NOT suppressed: it is
recorded (`true`) and a second record is appended. -/
theorem normalization_not_before_dedup_cex :
    normalize c11 = normalize c13 ∧
    (processSymbol failEnv 1 none none c11 seededStore).1 = true ∧
    (processSymbol failEnv 1 none none c11 seededStore).2.records.length = 2 := by
  refine ⟨by decide, by decide, by decide⟩

/-- Claim C1 amended: normalization does run (identically) before
every provider query — `lookup_barcode` treats a code and its
normalized form alike — but it is not applied to the deduplication
key: `main` deduplicates on the raw decoded text, so a raw code absent
from the seen-set is looked up and recorded even when a record for the
other, equivalent form of the same number is already persisted. -/
theorem normalize_before_queries_not_before_dedup :
    (∀ (env : Env) (code : List Char),
        lookup_barcode env code = lookup_barcode env (normalize code)) ∧
    (∀ (env : Env) (ts : Nat) (mrp qty : Option String) (s : StoreState),
        c13 ∈ s.seen → c11 ∉ s.seen →
        normalize c11 = normalize c13 ∧
        (processSymbol env ts mrp qty c11 s).1 = true ∧
        (processSymbol env ts mrp qty c11 s).2.records
          = s.records ++ [⟨ts, c11, mrp, qty, (lookup_barcode env c11).1⟩]) := by
  constructor
  · intro env code
    simp only [lookup_barcode, normalize_idem]
  · intro env ts mrp qty s h13 h11
    refine ⟨by decide, ?_, ?_⟩
    · rw [processSymbol_record env ts mrp qty c11 s (by decide) h11]
    · rw [processSymbol_record env ts mrp qty c11 s (by decide) h11]

theorem normalize_before_queries_not_before_dedup_witness :
    lookup_barcode failEnv c13 = lookup_barcode failEnv (normalize c13) ∧
    (normalize c11 = normalize c13 ∧
     (processSymbol failEnv 1 none none c11 seededStore).1 = true ∧
     (processSymbol failEnv 1 none none c11 seededStore).2.records
       = seededStore.records ++ [⟨1, c11, none, none, (lookup_barcode failEnv c11).1⟩]) :=
  ⟨normalize_before_queries_not_before_dedup.1 failEnv c13,
   normalize_before_queries_not_before_dedup.2 failEnv 1 none none seededStore
     (by decide) (by decide)⟩

end BarcodeScanner
